import Mathlib

/-!
Shallow embedding of `operate.py`, a wrapper around the Operator SDK.

A defect shapes much of the embedding: `get_logger` (source line 103) is an
undecorated instance method taking `self`, yet the classmethods `shell`
(line 178) and `load` (line 149) call it as `cls.get_logger()` — on the class
object, with no argument — which raises TypeError, and `main` (line 275)
calls `Operator.get_logger(verbose)`, where the flag count binds the `self`
parameter and `verbosity` keeps its default None.  The embedding therefore
distinguishes, for each affected method, what the program actually does from
the unreachable remainder of its body:
* `utf8Decode` / `Operator.utf8ify` — `Operator._utf8ify`, which decodes one
  line of child output as UTF-8 and strips trailing whitespace;
* `Operator.shell` — the generator as it actually behaves (TypeError on the
  first `next()`); `shellIntended`, with `shellLoop` and `shellEpilogue`, is
  the unreachable remainder of its body.  A Python generator runs its body
  only as the consumer requests elements, so both take the child's byte
  output, its exit code, and the number of `next()` requests the consumer
  makes, and return the list of observable events (log records, process
  spawn, yielded lines, process-level exit, raised exceptions) in order;
* `Operator.get_logger` — the body of `get_logger` as a state transformer on
  explicit process-wide logger state (the handler list of the logger named
  Operator), for calls that do reach it with a bound `self`;
* `Operator.determine_runtime` — `Operator._determine_runtime` as it actually
  behaves; `determineRuntimeScan` is its unreachable scanning logic;
* `dictGet` / `Operator.load` / `Operator.load_run` — the field extraction
  the loader would perform on the parsed yaml mapping, and the method's
  actual outcome;
* `Operator.init` / `Operator.initialize_operator` — the constructor (which
  never assigns `self.initialized`) and the scaffolding method.
-/

namespace OperatePy

/-- Python logging severity DEBUG. -/
def DEBUG : Nat := 10

/-- Python logging severity INFO. -/
def INFO : Nat := 20

/-- Python logging severity WARNING. -/
def WARNING : Nat := 30

/-- Python logging severity ERROR. -/
def ERROR : Nat := 40

/-- Decode a list of byte values as UTF-8, as `bytes.decode` does; `none`
models Python raising `UnicodeDecodeError` (invalid leads, bad continuation
bytes, overlong forms, surrogates and out-of-range code points rejected). -/
def utf8Decode : List Nat → Option (List Char)
  | [] => some []
  | b :: rest =>
    if b < 0x80 then
      (utf8Decode rest).map (fun cs => Char.ofNat b :: cs)
    else if b < 0xC2 then
      none
    else if b < 0xE0 then
      match rest with
      | b2 :: rest2 =>
        if 0x80 ≤ b2 && b2 < 0xC0 then
          (utf8Decode rest2).map (fun cs => Char.ofNat ((b - 0xC0) * 0x40 + (b2 - 0x80)) :: cs)
        else none
      | [] => none
    else if b < 0xF0 then
      match rest with
      | b2 :: b3 :: rest3 =>
        if (0x80 ≤ b2 && b2 < 0xC0) && (0x80 ≤ b3 && b3 < 0xC0) then
          if (b - 0xE0) * 0x1000 + (b2 - 0x80) * 0x40 + (b3 - 0x80) < 0x800 ∨
              (0xD800 ≤ (b - 0xE0) * 0x1000 + (b2 - 0x80) * 0x40 + (b3 - 0x80) ∧
               (b - 0xE0) * 0x1000 + (b2 - 0x80) * 0x40 + (b3 - 0x80) < 0xE000) then
            none
          else
            (utf8Decode rest3).map
              (fun cs => Char.ofNat ((b - 0xE0) * 0x1000 + (b2 - 0x80) * 0x40 + (b3 - 0x80)) :: cs)
        else none
      | _ => none
    else if b < 0xF5 then
      match rest with
      | b2 :: b3 :: b4 :: rest4 =>
        if (0x80 ≤ b2 && b2 < 0xC0) && ((0x80 ≤ b3 && b3 < 0xC0) && (0x80 ≤ b4 && b4 < 0xC0)) then
          if (b - 0xF0) * 0x40000 + (b2 - 0x80) * 0x1000 + (b3 - 0x80) * 0x40 + (b4 - 0x80) < 0x10000 ∨
              0x110000 ≤ (b - 0xF0) * 0x40000 + (b2 - 0x80) * 0x1000 + (b3 - 0x80) * 0x40 + (b4 - 0x80) then
            none
          else
            (utf8Decode rest4).map
              (fun cs =>
                Char.ofNat
                  ((b - 0xF0) * 0x40000 + (b2 - 0x80) * 0x1000 + (b3 - 0x80) * 0x40 + (b4 - 0x80)) :: cs)
        else none
      | _ => none
    else none

/-- Whitespace characters stripped by Python `str.rstrip()` (the ASCII ones;
child output lines end in a newline). -/
def isPySpace (c : Char) : Bool :=
  c = Char.ofNat 0x20 || c = Char.ofNat 0x9 || c = Char.ofNat 0xA ||
    c = Char.ofNat 0xD || c = Char.ofNat 0xB || c = Char.ofNat 0xC

/-- Python `str.rstrip()`: drop trailing whitespace. -/
def rstrip (cs : List Char) : List Char :=
  (cs.reverse.dropWhile isPySpace).reverse

/-- `Operator._utf8ify`: `line_bytes.decode("utf-8").rstrip()`. -/
def Operator.utf8ify (line_bytes : List Nat) : Option String :=
  (utf8Decode line_bytes).map (fun cs => String.mk (rstrip cs))

/-- Python `str.endswith` on full strings. -/
def pyEndsWith (s suffix : String) : Bool :=
  suffix.toList.isSuffixOf s.toList

/-- Exceptions the embedded methods can raise. -/
inductive PyError where
  | attributeError (name : String)
  | typeError (msg : String)
  | unicodeDecodeError
  | runtimeError (msg : String)
  deriving DecidableEq

/-- The exception raised by `cls.get_logger()` in the classmethods `shell`
and `load`: `get_logger` (source line 103) is an undecorated instance method
whose first parameter is `self`, so calling it on the class object with no
argument raises TypeError. -/
def getLoggerTypeError : PyError :=
  PyError.typeError "get_logger() missing 1 required positional argument: self"

/-- One record sent to the logger: severity level and message. -/
structure LogRecord where
  level : Nat
  msg : String
  deriving DecidableEq

/-- An observable event of one `Operator.shell` generator run.  `raiseErr`
is an exception escaping the generator body (killing the generator);
`decodeError` is the UnicodeDecodeError a bad line would raise in the loop. -/
inductive ShellEvent where
  | log (r : LogRecord)
  | spawn (cmd : String)
  | yieldLine (line : String)
  | processExit (code : Int)
  | raiseErr (e : PyError)
  | decodeError
  deriving DecidableEq

/-- The code after the loop in `Operator.shell`: `ret = proc.wait()` followed
by the fail/warn policy; `exit(ret)` is the process-level exit event. -/
def shellEpilogue (cmd : String) (fail : Bool) (ret : Int) : List ShellEvent :=
  if fail = true ∧ ret ≠ 0 then
    [ShellEvent.log ⟨ERROR, "Command errored: " ++ cmd⟩, ShellEvent.processExit ret]
  else if ret ≠ 0 then
    [ShellEvent.log ⟨WARNING, "Command returned " ++ toString ret ++ ": " ++ cmd⟩]
  else []

/-- The `for line in map(cls._utf8ify, iter(proc.stdout.readline, ...))` loop.
`out` is the list of byte lines the child writes; `k` is how many further
`next()` requests the consumer will make.  Each consumed line is decoded,
logged at DEBUG, then yielded; at end of output the epilogue runs (on the
`next()` call that raises StopIteration); if the consumer stops requesting
(`k = 0`), the generator is suspended and nothing further happens. -/
def shellLoop (cmd : String) (fail : Bool) (ret : Int) : List (List Nat) → Nat → List ShellEvent
  | _, 0 => []
  | [], _ + 1 => shellEpilogue cmd fail ret
  | b :: rest, k + 1 =>
    match Operator.utf8ify b with
    | none => [ShellEvent.decodeError]
    | some line =>
      ShellEvent.log ⟨DEBUG, "Line:    " ++ line⟩ ::
        ShellEvent.yieldLine line :: shellLoop cmd fail ret rest k

/-- What the generator body of `shell` below its first statement would do
(source lines 179-193) if that statement succeeded: on the first `next()`
request the `Running:` DEBUG record and the `subprocess.Popen` spawn, then
the line loop and the exit-code epilogue.  In the program this code is
unreachable — see `Operator.shell`. -/
def shellIntended (cmd : String) (fail : Bool) (output : List (List Nat)) (ret : Int)
    (consumed : Nat) : List ShellEvent :=
  match consumed with
  | 0 => []
  | _ + 1 =>
    ShellEvent.log ⟨DEBUG, "Running: " ++ cmd⟩ ::
      ShellEvent.spawn cmd :: shellLoop cmd fail ret output consumed

/-- `Operator.shell cmd fail out ret consumed`: the events produced when the
consumer makes `consumed` `next()` requests against the generator for a child
that would write the byte lines `out` and exit with code `ret`.  The first
statement of the generator body is `logger = cls.get_logger()`, which raises
TypeError (see `getLoggerTypeError`), so the first request kills the
generator: nothing below that statement — no `Running:` record, no
`subprocess.Popen`, no yielded line, no exit-code policy — ever executes
(`shellIntended` models that unreachable remainder).  With `consumed = 0`
the body never starts and there are no events at all. -/
def Operator.shell (cmd : String) (fail : Bool) (output : List (List Nat)) (ret : Int)
    (consumed : Nat) : List ShellEvent :=
  match consumed with
  | 0 => []
  | _ + 1 => [ShellEvent.raiseErr getLoggerTypeError]

/-- The lines a generator run hands to its consumer, in order. -/
def yieldedLines (evs : List ShellEvent) : List String :=
  evs.filterMap fun e =>
    match e with
    | ShellEvent.yieldLine s => some s
    | _ => none

/-- The records a generator run sends to the logger, in order. -/
def logRecords (evs : List ShellEvent) : List LogRecord :=
  evs.filterMap fun e =>
    match e with
    | ShellEvent.log r => some r
    | _ => none

/-- The process-level exits (`exit(ret)`) of a generator run. -/
def exitCodes (evs : List ShellEvent) : List Int :=
  evs.filterMap fun e =>
    match e with
    | ShellEvent.processExit c => some c
    | _ => none

/-- Iterating a generator trace with a `for` loop: collect the yielded lines
in order; an exception event aborts the iteration and propagates to the
caller. -/
def drainLines : List ShellEvent → Except PyError (List String)
  | [] => Except.ok []
  | ShellEvent.raiseErr e :: _ => Except.error e
  | ShellEvent.decodeError :: _ => Except.error PyError.unicodeDecodeError
  | ShellEvent.yieldLine s :: rest => (drainLines rest).map (fun ls => s :: ls)
  | _ :: rest => drainLines rest

/-- The kinds of sink `get_logger` installs. -/
inductive SinkKind where
  | console
  | syslog
  deriving DecidableEq

/-- One installed logging handler with its severity threshold. -/
structure Handler where
  kind : SinkKind
  level : Nat
  deriving DecidableEq

/-- The process-wide state of the logger named Operator. -/
structure LoggerState where
  level : Nat
  handlers : List Handler
  deriving DecidableEq

/-- The state before any `get_logger` call: no handlers installed. -/
def initialLoggerState : LoggerState := ⟨0, []⟩

/-- The console threshold formula `40 - (min(3, verbosity) * 10)`. -/
def consoleThreshold (verbosity : Nat) : Nat := 40 - min 3 verbosity * 10

/-- `Operator.get_logger(verbosity)` as a state transformer.  `devLogExists`
models `os.path.exists` on the system log socket (fixed for the process).
First call (no handlers): install the console sink at the threshold given by
`verbosity` (40 when absent), then the syslog sink at INFO when the socket
exists.  Later calls with a verbosity update `logger.handlers[0]` in place;
later calls without one change nothing. -/
def Operator.get_logger (verbosity : Option Nat) (devLogExists : Bool)
    (s : LoggerState) : LoggerState :=
  let s1 : LoggerState := { s with level := DEBUG }
  if s1.handlers.length = 0 then
    let stderrLevel : Nat :=
      match verbosity with
      | some v => consoleThreshold v
      | none => 40
    { s1 with
        handlers := [Handler.mk SinkKind.console stderrLevel] ++
          (if devLogExists then [Handler.mk SinkKind.syslog INFO] else []) }
  else
    match verbosity, s1.handlers with
    | some v, h :: t => { s1 with handlers := { h with level := consoleThreshold v } :: t }
    | _, _ => s1

/-- Threshold of the installed console sink, if any. -/
def consoleLevel (s : LoggerState) : Option Nat :=
  (s.handlers.find? (fun h => decide (h.kind = SinkKind.console))).map Handler.level

/-- Threshold of the installed system-log sink, if any. -/
def syslogLevel (s : LoggerState) : Option Nat :=
  (s.handlers.find? (fun h => decide (h.kind = SinkKind.syslog))).map Handler.level

/-- A sequence of `get_logger` calls, applied in order. -/
def runCalls (devLogExists : Bool) (calls : List (Option Nat)) (s : LoggerState) : LoggerState :=
  calls.foldl (fun st c => Operator.get_logger c devLogExists st) s

/-- The per-line test in `Operator._determine_runtime`:
`line.endswith(suffix) and not os.path.islink(line)`. -/
def runtimeMatch (suffix : String) (islink : String → Bool) (line : String) : Bool :=
  pyEndsWith line suffix && !(islink line)

/-- The scanning logic of `_determine_runtime` (source lines 216-222): what
the method would answer if iterating the probe generators delivered their
decoded lines.  The Python loops return on the first matching line; since
the answer only depends on whether some line matches, the scan checks the
whole list.  Unreachable in the program — see `Operator.determine_runtime`. -/
def determineRuntimeScan (islink : String → Bool)
    (dockerLines podmanLines : List String) : Except PyError String :=
  if dockerLines.any (runtimeMatch "/docker" islink) then Except.ok "docker"
  else if podmanLines.any (runtimeMatch "/podman" islink) then Except.ok "podman"
  else Except.error (PyError.runtimeError "Unable to identify a container runtime!")

/-- `Operator._determine_runtime` as the program behaves.  `islink` models
`os.path.islink` on the host; `dockerOut`/`podmanOut` and
`dockerRet`/`podmanRet` are the output and exit codes the `which docker` /
`which podman` children would produce, run through `Operator.shell` with
`fail = false`.  Each `for` loop drains its generator; the first `next()`
request on the docker probe raises TypeError (see `Operator.shell`), which
propagates out of the method, so the scan never runs. -/
def Operator.determine_runtime (islink : String → Bool)
    (dockerOut podmanOut : List (List Nat)) (dockerRet podmanRet : Int) :
    Except PyError String :=
  match drainLines (Operator.shell "which docker" false dockerOut dockerRet
      (dockerOut.length + 1)) with
  | Except.error e => Except.error e
  | Except.ok dockerLines =>
    if dockerLines.any (runtimeMatch "/docker" islink) then Except.ok "docker"
    else
      match drainLines (Operator.shell "which podman" false podmanOut podmanRet
          (podmanOut.length + 1)) with
      | Except.error e => Except.error e
      | Except.ok podmanLines =>
        if podmanLines.any (runtimeMatch "/podman" islink) then Except.ok "podman"
        else Except.error (PyError.runtimeError "Unable to identify a container runtime!")

/-- A value of the parsed yaml settings document. -/
inductive YVal where
  | str (s : String)
  | strList (xs : List String)
  deriving DecidableEq

/-- Python `dict.get`: the value at a key, or `None` when absent. -/
def dictGet (d : List (String × YVal)) (key : String) : Option YVal :=
  (d.find? (fun kv => decide (kv.1 = key))).map Prod.snd

/-- The attributes an `Operator` object carries.  `initialized = none` means
the attribute was never assigned, so reading it raises `AttributeError`. -/
structure OperatorObj where
  image : Option YVal
  version : Option YVal
  channels : Option YVal
  kinds : Option YVal
  default_sample : Option YVal
  domain : Option YVal
  group : Option YVal
  api_version : Option YVal
  runtime : String
  initialized : Option Bool
  deriving DecidableEq

/-- `Operator.__init__`.  Every field of the signature is stored on `self`
except `initialized`: the parameter is accepted and then dropped — no
statement `self.initialized = initialized` exists in the body — so the
attribute is absent (`none`) whatever the argument.  `runtime` stands for the
result of `self._determine_runtime()`. -/
def Operator.init (image version channels kinds default_sample domain group api_version :
    Option YVal) (initialized : Bool) (runtime : String) : OperatorObj :=
  { image := image, version := version, channels := channels, kinds := kinds,
    default_sample := default_sample, domain := domain, group := group,
    api_version := api_version, runtime := runtime, initialized := none }

/-- The object construction on source lines 150-162 of `Operator.load` (file
reading and yaml parsing precede this point): each recognized key is read
with `dict.get`, so an absent key yields `None` rather than an error, and
the constructor is called without an `initialized` argument (its Python
default `False` applies).  The method never reaches this code — its first
statement raises, see `Operator.load_run`. -/
def Operator.load (settings : List (String × YVal)) (runtime : String) : OperatorObj :=
  Operator.init (dictGet settings "image") (dictGet settings "version")
    (dictGet settings "channels") (dictGet settings "kinds")
    (dictGet settings "default-sample") (dictGet settings "domain")
    (dictGet settings "group") (dictGet settings "api-version")
    false runtime

/-- `Operator.load` as the program behaves: its first statement
`logger = cls.get_logger()` (source line 149) calls the undecorated instance
method through the class with no argument and raises TypeError — before
`open(file)`, before yaml parsing, before the field extraction modeled by
`Operator.load`. -/
def Operator.load_run (settings : List (String × YVal)) (runtime : String) :
    Except PyError OperatorObj :=
  Except.error getLoggerTypeError

/-- A single-quote character, built without a source-level quote literal. -/
def pyQuote : String := String.mk [Char.ofNat 39]

/-- Python `str()` of a list of strings, as `format` would render it. -/
def pyStrOfList (xs : List String) : String :=
  "[" ++ String.intercalate ", " (xs.map (fun x => pyQuote ++ x ++ pyQuote)) ++ "]"

/-- Python `str()` of a stored field value, as `"...".format(value)` renders
it: `None` prints as the word None. -/
def pyStr : Option YVal → String
  | none => "None"
  | some (YVal.str s) => s
  | some (YVal.strList xs) => pyStrOfList xs

/-- Python iteration over `self.kinds` in the list comprehension of
`initialize_operator`: `None` is not iterable (TypeError); a string iterates
over its characters; a list iterates over its elements. -/
def pyIter : Option YVal → Except PyError (List String)
  | none => Except.error (PyError.typeError "NoneType object is not iterable")
  | some (YVal.str s) => Except.ok (s.toList.map (fun c => String.mk [c]))
  | some (YVal.strList xs) => Except.ok xs

/-- The `operator-sdk init` command string built by `initialize_operator`. -/
def initCmd (op : OperatorObj) : String :=
  "operator-sdk init --plugins=ansible --domain=" ++ pyStr op.domain

/-- The per-kind `operator-sdk create api` command string. -/
def createApiCmd (op : OperatorObj) (kind : String) : String :=
  "operator-sdk create api --group=" ++ pyStr op.group ++ " --version=" ++
    pyStr op.version ++ " --kind=" ++ kind

/-- Result of `initialize_operator`: the updated object, plus the generator
objects the method constructed: each `self.shell(...)` call merely builds a
generator (command string, fail flag `true` by default) whose body — including
`subprocess.Popen` — would only run once iterated. -/
structure InitResult where
  op : OperatorObj
  gens : List (String × Bool)
  deriving DecidableEq

/-- `Operator.initialize_operator`.  The first statement reads
`self.initialized`: on an object where the attribute was never assigned this
raises `AttributeError`.  Otherwise, when the flag is false, the method builds
the `operator-sdk init` generator, then one `create api` generator per kind
(iterating `self.kinds`), assigns the results to throwaway names without ever
iterating them, and finally sets `self.initialized = True`.  Because no
generator is iterated, each corresponds to `Operator.shell` with
`consumed = 0`: no events, no spawn. -/
def Operator.initialize_operator (op : OperatorObj) : Except PyError InitResult :=
  match op.initialized with
  | none => Except.error (PyError.attributeError "initialized")
  | some true => Except.ok ⟨op, []⟩
  | some false =>
    match pyIter op.kinds with
    | Except.error e => Except.error e
    | Except.ok ks =>
      Except.ok ⟨{ op with initialized := some true },
        (initCmd op, true) :: ks.map (fun k => (createApiCmd op k, true))⟩

/-- The click count option of `main`: each occurrence of the `-v` (or
`--verbose`) flag on the command line increments the count. -/
def parse_verbose (args : List String) : Nat :=
  args.countP (fun a => a = "-v" || a = "--verbose")

/-- The body of `main` as the program behaves, starting from a fresh
process.  `main` calls `Operator.get_logger(verbose)`: on the unbound
instance method the click count binds the `self` parameter (an int is a
valid `self` here because the body never touches it), so `verbosity` keeps
its default None and the count never influences the provisioning. -/
def main (args : List String) (devLogExists : Bool) : LoggerState :=
  let _verbose := parse_verbose args
  Operator.get_logger none devLogExists initialLoggerState


/-- Decode every byte line of a child's output with `Operator.utf8ify`;
`none` when any line is invalid UTF-8. -/
def decodeLines : List (List Nat) → Option (List String)
  | [] => some []
  | b :: rest =>
    match Operator.utf8ify b, decodeLines rest with
    | some line, some ls => some (line :: ls)
    | _, _ => none

/-- Shape of the handler list after the first `get_logger` call: one console
sink in front, then (when the system log socket exists) one syslog sink at
INFO, and nothing else. -/
def Provisioned (devLogExists : Bool) (s : LoggerState) : Prop :=
  ∃ lvl, s.handlers = Handler.mk SinkKind.console lvl ::
    (if devLogExists then [Handler.mk SinkKind.syslog INFO] else [])

/-- A freshly constructed settings object (all defaults). -/
def sampleFreshOp : OperatorObj :=
  Operator.init none none none none none none none none false "docker"

/-- A settings object whose `initialized` attribute was set to `False` from
outside, with concrete domain, group, version and one kind. -/
def sampleFlaggedOp : OperatorObj :=
  { Operator.init (some (YVal.str "img")) (some (YVal.str "v1")) none
      (some (YVal.strList ["Foo"])) none (some (YVal.str "example.com"))
      (some (YVal.str "apps")) none false "docker" with initialized := some false }

theorem provisioned_after_first (c : Option Nat) (dev : Bool) :
    Provisioned dev (Operator.get_logger c dev initialLoggerState) := by
  cases c <;> cases dev <;> exact ⟨_, rfl⟩

theorem provisioned_step (c : Option Nat) (dev : Bool) (s : LoggerState)
    (h : Provisioned dev s) : Provisioned dev (Operator.get_logger c dev s) := by
  obtain ⟨lvl, hs⟩ := h
  cases c with
  | none =>
    refine ⟨lvl, ?_⟩
    simp [Operator.get_logger, hs]
  | some v =>
    refine ⟨consoleThreshold v, ?_⟩
    simp [Operator.get_logger, hs]

theorem provisioned_runCalls (dev : Bool) (calls : List (Option Nat)) (s : LoggerState)
    (h : Provisioned dev s) : Provisioned dev (runCalls dev calls s) := by
  induction calls generalizing s with
  | nil => exact h
  | cons c rest ih =>
    exact ih (Operator.get_logger c dev s) (provisioned_step c dev s h)

theorem handlers_length_of_provisioned (dev : Bool) (s : LoggerState)
    (h : Provisioned dev s) : s.handlers.length = if dev then 2 else 1 := by
  obtain ⟨lvl, hs⟩ := h
  cases dev <;> simp [hs]

theorem syslogLevel_of_provisioned (dev : Bool) (s : LoggerState)
    (h : Provisioned dev s) : syslogLevel s = if dev then some INFO else none := by
  obtain ⟨lvl, hs⟩ := h
  cases dev <;> simp [syslogLevel, hs, List.find?]

theorem consoleLevel_first_call (v : Nat) (dev : Bool) :
    consoleLevel (Operator.get_logger (some v) dev initialLoggerState) =
      some (consoleThreshold v) := by
  cases dev <;> simp [Operator.get_logger, initialLoggerState, consoleLevel, List.find?]

theorem consoleLevel_first_call_none (dev : Bool) :
    consoleLevel (Operator.get_logger none dev initialLoggerState) = some 40 := by
  cases dev <;> simp [Operator.get_logger, initialLoggerState, consoleLevel, List.find?]
theorem consoleLevel_step_some (v : Nat) (dev : Bool) (s : LoggerState)
    (h : Provisioned dev s) :
    consoleLevel (Operator.get_logger (some v) dev s) = some (consoleThreshold v) := by
  obtain ⟨lvl, hs⟩ := h
  simp [Operator.get_logger, hs, consoleLevel, List.find?]

/-- C1 (code bug): the Process Runner never yields those lines.  The first
`next()` request on any `shell` generator raises TypeError at
`logger = cls.get_logger()` (an undecorated instance method called on the
class), so the returned sequence delivers no element for any command or
consumption; at the failing input the whole trace is that one exception,
while the unreachable remainder of the generator body would have yielded a,
b, c (decoded and rstripped) with no process-level exit, as the claim
states. -/
theorem claim1_shell_never_yields (cmd : String) (fail : Bool) (out : List (List Nat))
    (ret : Int) (k : Nat) :
    yieldedLines (Operator.shell cmd fail out ret k) = [] ∧
    Operator.shell "echo abc" true [[97, 10], [98, 10], [99, 10]] 0 1 =
      [ShellEvent.raiseErr getLoggerTypeError] ∧
    decodeLines [[97, 10], [98, 10], [99, 10]] = some ["a", "b", "c"] ∧
    yieldedLines (shellIntended "echo abc" true [[97, 10], [98, 10], [99, 10]] 0 4) =
      ["a", "b", "c"] ∧
    exitCodes (shellIntended "echo abc" true [[97, 10], [98, 10], [99, 10]] 0 4) = [] :=
  ⟨by cases k <;> rfl, rfl, by decide, by decide, by decide⟩

/-- C2 (code bug): the fail/warn policy is unreachable.  Iterating any
`shell` generator raises TypeError on the first `next()`, so no log record
is ever emitted and no process-level exit ever occurs, whatever the exit
code and `fail` flag; at the failing input (exit code 7, fully drained) the
trace is exactly the exception, while the unreachable epilogue would have
produced the ERROR-record-and-exit (fail true) and the WARNING record
(fail false) the claim describes. -/
theorem claim2_exit_policy_unreachable (cmd : String) (fail : Bool) (out : List (List Nat))
    (ret : Int) (k : Nat) :
    logRecords (Operator.shell cmd fail out ret k) = [] ∧
    exitCodes (Operator.shell cmd fail out ret k) = [] ∧
    Operator.shell "badcmd" true [] 7 1 = [ShellEvent.raiseErr getLoggerTypeError] ∧
    Operator.shell "badcmd" false [] 7 1 = [ShellEvent.raiseErr getLoggerTypeError] ∧
    shellEpilogue "badcmd" true 7 =
      [ShellEvent.log ⟨ERROR, "Command errored: badcmd"⟩, ShellEvent.processExit 7] ∧
    shellEpilogue "badcmd" false 7 =
      [ShellEvent.log ⟨WARNING, "Command returned 7: badcmd"⟩] :=
  ⟨by cases k <;> rfl, by cases k <;> rfl, rfl, rfl, by decide, by decide⟩
/-- C3 (code bug): on a freshly constructed object `initialize_operator`
raises AttributeError before any command runs (the constructor never assigns
`self.initialized`); and even on an object whose `initialized` attribute is
present and false, the method only constructs the `operator-sdk init` and
per-kind `create api` generators without iterating them, and a generator
consumed zero times produces no events — no subprocess is ever spawned. -/
theorem claim3_no_scaffolding_runs :
    Operator.initialize_operator sampleFreshOp =
      Except.error (PyError.attributeError "initialized") ∧
    Operator.initialize_operator sampleFlaggedOp =
      Except.ok ⟨{ sampleFlaggedOp with initialized := some true },
        [("operator-sdk init --plugins=ansible --domain=example.com", true),
         ("operator-sdk create api --group=apps --version=v1 --kind=Foo", true)]⟩ ∧
    ∀ (cmd : String) (fail : Bool) (out : List (List Nat)) (ret : Int),
      Operator.shell cmd fail out ret 0 = [] :=
  ⟨rfl, rfl, fun _ _ _ _ => rfl⟩

/-- C4 (code bug): the runtime detector never probes.  The first iteration
over `cls.shell("which docker", fail=False)` raises TypeError (see
`Operator.shell`), which propagates out of `_determine_runtime` for every
host configuration — the method never returns "docker" or "podman" and never
reaches its descriptive RuntimeError; the unreachable scan below it would
have selected docker for a non-symlink /usr/bin/docker, podman when only a
non-symlink /usr/bin/podman resolves, and the descriptive error when neither
probe matches. -/
theorem claim4_detector_never_probes (islink : String → Bool)
    (dOut pOut : List (List Nat)) (dRet pRet : Int) :
    Operator.determine_runtime islink dOut pOut dRet pRet =
      Except.error getLoggerTypeError ∧
    determineRuntimeScan (fun _ => false) ["/usr/bin/docker"] [] = Except.ok "docker" ∧
    determineRuntimeScan (fun _ => false) [] ["/usr/bin/podman"] = Except.ok "podman" ∧
    determineRuntimeScan (fun _ => false) [] [] =
      Except.error (PyError.runtimeError "Unable to identify a container runtime!") :=
  ⟨rfl, rfl, rfl, rfl⟩

/-- C5: the first `get_logger` call with verbosity v sets the console sink
threshold to 40 - min(3, v) * 10, and a first call without verbosity sets it
to 40, whether or not the system log socket exists. -/
theorem claim5_console_threshold_first_call (v : Nat) (dev : Bool) :
    consoleLevel (Operator.get_logger (some v) dev initialLoggerState) =
      some (40 - min 3 v * 10) ∧
    consoleLevel (Operator.get_logger none dev initialLoggerState) = some 40 :=
  ⟨consoleLevel_first_call v dev, consoleLevel_first_call_none dev⟩

/-- C6: after the first `get_logger` call, any further sequence of calls
leaves the sink count unchanged (and it is at most 2), leaves the system-log
sink threshold untouched, and a later call with verbosity v only moves the
console threshold to 40 - min(3, v) * 10 while the system-log threshold is
still untouched. -/
theorem claim6_sink_stability (dev : Bool) (c0 : Option Nat) (rest : List (Option Nat)) :
    (runCalls dev rest (Operator.get_logger c0 dev initialLoggerState)).handlers.length =
      (Operator.get_logger c0 dev initialLoggerState).handlers.length ∧
    (runCalls dev rest (Operator.get_logger c0 dev initialLoggerState)).handlers.length ≤ 2 ∧
    syslogLevel (runCalls dev rest (Operator.get_logger c0 dev initialLoggerState)) =
      syslogLevel (Operator.get_logger c0 dev initialLoggerState) ∧
    ∀ v, consoleLevel (Operator.get_logger (some v) dev
        (runCalls dev rest (Operator.get_logger c0 dev initialLoggerState))) =
      some (40 - min 3 v * 10) ∧
      syslogLevel (Operator.get_logger (some v) dev
          (runCalls dev rest (Operator.get_logger c0 dev initialLoggerState))) =
        syslogLevel (Operator.get_logger c0 dev initialLoggerState) := by
  have h1 := provisioned_after_first c0 dev
  have h2 := provisioned_runCalls dev rest _ h1
  have l1 := handlers_length_of_provisioned dev _ h1
  have l2 := handlers_length_of_provisioned dev _ h2
  have s1 := syslogLevel_of_provisioned dev _ h1
  have s2 := syslogLevel_of_provisioned dev _ h2
  refine ⟨by rw [l1, l2], by rw [l2]; cases dev <;> simp, by rw [s1, s2], ?_⟩
  intro v
  have h3 := provisioned_step (some v) dev _ h2
  have s3 := syslogLevel_of_provisioned dev _ h3
  exact ⟨consoleLevel_step_some v dev _ h2, by rw [s3, s1]⟩
/-- C7 (code bug): no output line is ever emitted at DEBUG, nor yielded.
The first `next()` on any `shell` generator raises TypeError before a line
is read, so the trace of any run contains no log record and no yielded line;
at the failing input the child would write the line a, yet the trace is
exactly the exception.  Moreover the claim's consumption-independence is
wrong even of the unreachable generator body: a one-request consumer of a
two-line child gets no DEBUG record for the second line there either. -/
theorem claim7_no_debug_emission (cmd : String) (fail : Bool) (out : List (List Nat))
    (ret : Int) (k : Nat) :
    logRecords (Operator.shell cmd fail out ret k) = [] ∧
    yieldedLines (Operator.shell cmd fail out ret k) = [] ∧
    decodeLines [[97, 10]] = some ["a"] ∧
    Operator.shell "cat notes.txt" true [[97, 10]] 0 1 =
      [ShellEvent.raiseErr getLoggerTypeError] ∧
    decodeLines [[97, 10], [98, 10]] = some ["a", "b"] ∧
    ShellEvent.log ⟨DEBUG, "Line:    b"⟩ ∉
      shellIntended "cat notes.txt" true [[97, 10], [98, 10]] 0 1 :=
  ⟨by cases k <;> rfl, by cases k <;> rfl, by decide, rfl, by decide, by decide⟩

/-- C8 (code bug): the loader always raises.  Its first statement
`logger = cls.get_logger()` raises TypeError before the settings file is
even opened, for every document; the unreachable construction below it would
have produced exactly the claimed object — image foo and every other
recognized field None, absent keys being no parse error — for a document
setting only `image: foo`. -/
theorem claim8_load_always_raises (doc : List (String × YVal)) (rt : String) :
    Operator.load_run doc rt = Except.error getLoggerTypeError ∧
    (Operator.load [("image", YVal.str "foo")] rt).image = some (YVal.str "foo") ∧
    (Operator.load [("image", YVal.str "foo")] rt).version = none ∧
    (Operator.load [("image", YVal.str "foo")] rt).channels = none ∧
    (Operator.load [("image", YVal.str "foo")] rt).kinds = none ∧
    (Operator.load [("image", YVal.str "foo")] rt).default_sample = none ∧
    (Operator.load [("image", YVal.str "foo")] rt).domain = none ∧
    (Operator.load [("image", YVal.str "foo")] rt).group = none ∧
    (Operator.load [("image", YVal.str "foo")] rt).api_version = none :=
  ⟨rfl, rfl, rfl, rfl, rfl, rfl, rfl, rfl, rfl⟩

/-- C9 (code bug): the -v count is parsed but silently discarded.  The flag
repeated k times does parse to the count k, but `Operator.get_logger(verbose)`
passes that count into the unbound instance method where it binds the `self`
parameter, so the logger is provisioned with verbosity None and the console
threshold is 40 for every invocation — not the 40 - min(3, k) * 10 the claim
states, which at k = 1 would already be 30. -/
theorem claim9_verbosity_discarded (k : Nat) (dev : Bool) (args : List String) :
    parse_verbose (List.replicate k "-v") = k ∧
    consoleLevel (main args dev) = some 40 ∧
    40 - min 3 (parse_verbose ["-v"]) * 10 = 30 := by
  refine ⟨?_, consoleLevel_first_call_none dev, by decide⟩
  induction k with
  | zero => rfl
  | succ m ih =>
    simp only [parse_verbose, List.replicate_succ, List.countP_cons] at ih ⊢
    simp [ih]

/-- C10: whatever `initialized` argument the constructor receives (and for
every object the `load` alternate constructor produces), the constructed
object carries no `initialized` attribute, and the first read of it by
`initialize_operator` raises AttributeError. -/
theorem claim10_initialized_never_assigned (iv vv cv kv dsv dov gv av : Option YVal)
    (b : Bool) (rt : String) (doc : List (String × YVal)) :
    (Operator.init iv vv cv kv dsv dov gv av b rt).initialized = none ∧
    (Operator.load doc rt).initialized = none ∧
    Operator.initialize_operator (Operator.init iv vv cv kv dsv dov gv av b rt) =
      Except.error (PyError.attributeError "initialized") ∧
    Operator.initialize_operator (Operator.load doc rt) =
      Except.error (PyError.attributeError "initialized") :=
  ⟨rfl, rfl, rfl, rfl⟩
end OperatePy
